import Mathlib

/-!
Shallow embedding of the `roboat-extras` asset-upload client
(`src/ide/mod.rs`, `src/ide/ide_types.rs`).

The visible source contains the authenticated operation
(`upload_studio_asset`, `upload_studio_asset_internal`) and the request
type (`NewStudioAsset`).  The session state (`Client`), the error type
(`RoboatError`) and the response classifier (`validate_request_result`)
live elsewhere in the crate and are modelled from the spec where noted.

Transport is modelled as an oracle: a list of prescribed outcomes, one
consumed per Transport invocation.  The operations return, besides the
result, the trace of wire requests actually submitted (so that the number
of Transport invocations and the headers used on each are observable) and
the updated session state.
-/

/-- Modelled from the spec: the enumerated asset category (`crate::catalog::AssetType`,
not under src/).  The doc comment of `upload_studio_asset` names animation, audio and
decal assets; the stringified (Rust `Debug`) form of a variant is its constructor name. -/
inductive AssetType where
  | Animation
  | Audio
  | Decal
deriving DecidableEq, Repr

/-- Modelled from the spec: the stringified form of the category, sent verbatim as a
query value.  Rust `format!("{:?}", asset_type)` prints the variant name. -/
def assetTypeDebug : AssetType → String
  | .Animation => "Animation"
  | .Audio => "Audio"
  | .Decal => "Decal"

/-- `NewStudioAsset` from `src/ide/ide_types.rs`.  `Bytes` is modelled as a list of
byte values. -/
structure NewStudioAsset where
  name : String
  description : String
  asset_type : AssetType
  asset_data : List Nat
  group_id : Option Nat
  place_id : Option Nat
deriving DecidableEq, Repr

/-- Modelled from the spec: the crate error type `RoboatError` (not under src/).
The variants are the error taxonomy of the spec: missing cookie, token-invalid
carrying the replacement token, malformed refresh signal, remote rejection with
status and body, and transport failure with its cause. -/
inductive RoboatError where
  | MissingAuth
  | InvalidXcsrf (new_xcsrf : String)
  | MalformedRefreshSignal
  | ResponseError (status : Nat) (body : String)
  | ReqwestError (cause : Nat)
deriving DecidableEq, Repr

/-- Modelled from the spec: the session state (`Client`, not under src/): an optional
authentication cookie, immutable after construction, and a mutable anti-forgery
token. -/
structure ClientState where
  cookie : Option String
  xcsrf : String
deriving DecidableEq, Repr

/-- Modelled from the spec: `Client::cookie_string` fails with `MissingAuth` when the
cookie is unset and otherwise yields the cookie value, passed unchanged. -/
def ClientState.cookie_string (c : ClientState) : Except RoboatError String :=
  match c.cookie with
  | none => .error .MissingAuth
  | some s => .ok s

/-- Modelled from the spec: `Client::set_xcsrf` unconditionally overwrites the stored
token. -/
def ClientState.set_xcsrf (c : ClientState) (new_xcsrf : String) : ClientState :=
  { c with xcsrf := new_xcsrf }

/-- One prescribed outcome of a Transport invocation: a transport-level failure, or a
response with status, headers and body. -/
inductive TransportOutcome where
  | failure (cause : Nat)
  | response (status : Nat) (headers : List (String × String)) (body : String)
deriving DecidableEq, Repr

/-- The observable wire request submitted on one Transport invocation. -/
structure WireRequest where
  method : String
  url : String
  query : List (String × String)
  headers : List (String × String)
  body : List Nat
deriving DecidableEq, Repr

def STUDIO_UPLOAD_API : String := "https://www.roblox.com/ide/publish/uploadnewanimation"

/-- Modelled from the spec: the fixed anti-forgery request header name (`XCSRF_HEADER`,
not under src/). -/
def XCSRF_HEADER : String := "x-csrf-token"

def COOKIE_HEADER : String := "cookie"

def USER_AGENT_HEADER : String := "user-agent"

/-- Modelled from the spec: the well-known response header on which the rejecting
response carries the replacement token (the spec's concrete scenario names it
`X-New-Token`). -/
def REFRESH_HEADER : String := "X-New-Token"

/-- Modelled from the spec: `Client::validate_request_result` (Result/Error Mapping,
not under src/).  A transport failure is passed through as `ReqwestError`; a 2xx
response succeeds with its body text; a 403 rejection is classified by the Token
Refresh Protocol: with a usable replacement token in the well-known header it is
`InvalidXcsrf`, with the header absent or empty it is `MalformedRefreshSignal`;
any other status is `ResponseError` with status and body. -/
def validate_request_result (t : TransportOutcome) : Except RoboatError String :=
  match t with
  | .failure cause => .error (.ReqwestError cause)
  | .response status headers body =>
    if 200 ≤ status ∧ status < 300 then
      .ok body
    else if status = 403 then
      match List.lookup REFRESH_HEADER headers with
      | none => .error .MalformedRefreshSignal
      | some tok =>
        if tok = "" then .error .MalformedRefreshSignal
        else .error (.InvalidXcsrf tok)
    else
      .error (.ResponseError status body)

/-- The query parameters built by `upload_studio_asset_internal`
(src/ide/mod.rs lines 96-109): the seven fixed pairs, then `groupId` pushed only
when `group_id` is set. -/
def build_query_params (asset_info : NewStudioAsset) : List (String × String) :=
  let base := [("assetTypeName", assetTypeDebug asset_info.asset_type),
               ("name", asset_info.name),
               ("description", asset_info.description),
               ("AllID", "1"),
               ("ispublic", "False"),
               ("allowComments", "True"),
               ("isGamesAsset", "False")]
  match asset_info.group_id with
  | some group_id => base ++ [("groupId", toString group_id)]
  | none => base

/-- The wire request built by `upload_studio_asset_internal`
(src/ide/mod.rs lines 111-119): a POST to the upload endpoint with the built query
parameters, the cookie, anti-forgery and client-identification headers, and the raw
binary payload as body. -/
def mkWireRequest (cookie xcsrf : String) (asset_info : NewStudioAsset) : WireRequest :=
  { method := "POST"
    url := STUDIO_UPLOAD_API
    query := build_query_params asset_info
    headers := [(COOKIE_HEADER, cookie), (XCSRF_HEADER, xcsrf),
                (USER_AGENT_HEADER, "Roblox/WinInet")]
    body := asset_info.asset_data }

/-- `upload_studio_asset_internal` (src/ide/mod.rs lines 88-125): read the cookie
(failing fast with `MissingAuth`), read the current token, build the POST wire
request, submit it via Transport (consuming the head of the oracle), and map the
outcome through `validate_request_result`; a successful response's body text is the
result.  Returns the result, the trace of wire requests submitted (empty when the
cookie check fails) and the unconsumed remainder of the oracle. -/
def upload_studio_asset_internal (c : ClientState) (asset_info : NewStudioAsset)
    (oracle : List TransportOutcome) :
    Except RoboatError String × List WireRequest × List TransportOutcome :=
  match c.cookie_string with
  | .error e => (.error e, [], oracle)
  | .ok cookie =>
    (validate_request_result (oracle.headD (.failure 0)),
     [mkWireRequest cookie c.xcsrf asset_info], oracle.tail)

/-- `upload_studio_asset` (src/ide/mod.rs lines 66-78): run the internal operation
once; on `InvalidXcsrf new_xcsrf`, store the replacement token via `set_xcsrf` and
run the internal operation exactly once more, its outcome final; every other
outcome is returned unchanged.  Returns the result, the final session state and the
concatenated trace of wire requests. -/
def upload_studio_asset (c : ClientState) (asset_info : NewStudioAsset)
    (oracle : List TransportOutcome) :
    Except RoboatError String × ClientState × List WireRequest :=
  match upload_studio_asset_internal c asset_info oracle with
  | (.ok x, trace, _) => (.ok x, c, trace)
  | (.error (.InvalidXcsrf new_xcsrf), trace1, rest) =>
    let c2 := c.set_xcsrf new_xcsrf
    match upload_studio_asset_internal c2 asset_info rest with
    | (r, trace2, _) => (r, c2, trace1 ++ trace2)
  | (.error e, trace, _) => (.error e, c, trace)

/-- The concrete request of the spec's concrete scenario, used by witnesses. -/
def sampleAsset : NewStudioAsset :=
  { name := "roboatTest"
    description := "desc"
    asset_type := .Animation
    asset_data := [60, 120, 109, 108, 47, 62]
    group_id := none
    place_id := some 64 }

/-- The concrete session state of the spec's concrete scenario. -/
def sampleClient : ClientState := { cookie := some "C", xcsrf := "T1" }

example :
    upload_studio_asset sampleClient sampleAsset
      [.response 403 [(REFRESH_HEADER, "T2")] "", .response 200 [] "9876543210"] =
    ((.ok "9876543210"), { cookie := some "C", xcsrf := "T2" },
      [{ method := "POST", url := STUDIO_UPLOAD_API, query := build_query_params sampleAsset,
         headers := [(COOKIE_HEADER, "C"), (XCSRF_HEADER, "T1"),
                     (USER_AGENT_HEADER, "Roblox/WinInet")],
         body := sampleAsset.asset_data },
       { method := "POST", url := STUDIO_UPLOAD_API, query := build_query_params sampleAsset,
         headers := [(COOKIE_HEADER, "C"), (XCSRF_HEADER, "T2"),
                     (USER_AGENT_HEADER, "Roblox/WinInet")],
         body := sampleAsset.asset_data }]) := by
  rfl

/-- With the cookie unset, the internal operation fails with `MissingAuth` without
consuming any transport outcome. -/
lemma internal_cookie_none (c : ClientState) (asset_info : NewStudioAsset)
    (oracle : List TransportOutcome) (hck : c.cookie = none) :
    upload_studio_asset_internal c asset_info oracle = (.error .MissingAuth, [], oracle) := by
  simp [upload_studio_asset_internal, ClientState.cookie_string, hck]

/-- With the cookie set, the internal operation submits exactly one wire request,
built from the cookie, the current token and the request fields, and its result is
the classification of the consumed transport outcome. -/
lemma internal_cookie_some (c : ClientState) (ck : String) (asset_info : NewStudioAsset)
    (oracle : List TransportOutcome) (hck : c.cookie = some ck) :
    upload_studio_asset_internal c asset_info oracle =
      (validate_request_result (oracle.headD (.failure 0)),
       [mkWireRequest ck c.xcsrf asset_info], oracle.tail) := by
  simp [upload_studio_asset_internal, ClientState.cookie_string, hck]

/-- A first attempt classified as success is returned directly: one Transport
invocation, state unchanged. -/
lemma upload_first_ok (c : ClientState) (ck : String) (asset_info : NewStudioAsset)
    (t1 : TransportOutcome) (rest : List TransportOutcome) (b : String)
    (hck : c.cookie = some ck)
    (h1 : validate_request_result t1 = .ok b) :
    upload_studio_asset c asset_info (t1 :: rest) =
      (.ok b, c, [mkWireRequest ck c.xcsrf asset_info]) := by
  unfold upload_studio_asset
  rw [internal_cookie_some c ck asset_info (t1 :: rest) hck]
  simp [h1]

/-- A first attempt classified as token-invalid with replacement `T` stores `T` and
runs exactly one second attempt whose request carries `T`; the second attempt's
classification is the final result. -/
lemma upload_first_invalid (c : ClientState) (ck : String) (asset_info : NewStudioAsset)
    (t1 : TransportOutcome) (rest : List TransportOutcome) (T : String)
    (hck : c.cookie = some ck)
    (h1 : validate_request_result t1 = .error (.InvalidXcsrf T)) :
    upload_studio_asset c asset_info (t1 :: rest) =
      (validate_request_result (rest.headD (.failure 0)), c.set_xcsrf T,
       [mkWireRequest ck c.xcsrf asset_info, mkWireRequest ck T asset_info]) := by
  unfold upload_studio_asset
  rw [internal_cookie_some c ck asset_info (t1 :: rest) hck]
  simp only [List.headD_cons, List.tail_cons, h1]
  rw [internal_cookie_some (c.set_xcsrf T) ck asset_info rest hck]
  simp [ClientState.set_xcsrf]

/-- A first attempt classified as any error other than token-invalid is returned
directly: one Transport invocation, state unchanged. -/
lemma upload_first_other_error (c : ClientState) (ck : String) (asset_info : NewStudioAsset)
    (t1 : TransportOutcome) (rest : List TransportOutcome) (e : RoboatError)
    (hck : c.cookie = some ck)
    (h1 : validate_request_result t1 = .error e)
    (hne : ∀ s, e ≠ .InvalidXcsrf s) :
    upload_studio_asset c asset_info (t1 :: rest) =
      (.error e, c, [mkWireRequest ck c.xcsrf asset_info]) := by
  unfold upload_studio_asset
  rw [internal_cookie_some c ck asset_info (t1 :: rest) hck]
  simp only [List.headD_cons, List.tail_cons, h1]

/-- C1: if the first attempt fails with a token-invalid signal carrying replacement
token `T`, the operation stores `T` into the session token, the second Transport
invocation's request uses anti-forgery header value `T`, and the session token still
equals `T` after the operation completes, whatever the second attempt yields. -/
theorem upload_studio_asset_refreshes_token (c : ClientState) (ck : String)
    (asset_info : NewStudioAsset) (t1 : TransportOutcome) (rest : List TransportOutcome)
    (T : String) (hck : c.cookie = some ck)
    (h1 : validate_request_result t1 = .error (.InvalidXcsrf T)) :
    (upload_studio_asset c asset_info (t1 :: rest)).2.1.xcsrf = T ∧
    ∃ r1 r2, (upload_studio_asset c asset_info (t1 :: rest)).2.2 = [r1, r2] ∧
      List.lookup XCSRF_HEADER r2.headers = some T := by
  rw [upload_first_invalid c ck asset_info t1 rest T hck h1]
  exact ⟨rfl, mkWireRequest ck c.xcsrf asset_info, mkWireRequest ck T asset_info, rfl, rfl⟩

/-- Witness for C1 at the spec's concrete scenario. -/
theorem upload_studio_asset_refreshes_token_witness :
    (upload_studio_asset sampleClient sampleAsset
        [.response 403 [(REFRESH_HEADER, "T2")] "",
         .response 200 [] "9876543210"]).2.1.xcsrf = "T2" ∧
    ∃ r1 r2, (upload_studio_asset sampleClient sampleAsset
        [.response 403 [(REFRESH_HEADER, "T2")] "",
         .response 200 [] "9876543210"]).2.2 = [r1, r2] ∧
      List.lookup XCSRF_HEADER r2.headers = some "T2" :=
  upload_studio_asset_refreshes_token sampleClient "C" sampleAsset
    (.response 403 [(REFRESH_HEADER, "T2")] "") [.response 200 [] "9876543210"] "T2"
    rfl rfl

/-- C2: when both attempts yield a token-invalid signal the operation terminates
after exactly two Transport invocations, returning the second attempt's failure as
its result, and never issues a third attempt. -/
theorem upload_studio_asset_two_invalid_stops (c : ClientState) (ck : String)
    (asset_info : NewStudioAsset) (t1 t2 : TransportOutcome) (rest : List TransportOutcome)
    (T T' : String) (hck : c.cookie = some ck)
    (h1 : validate_request_result t1 = .error (.InvalidXcsrf T))
    (h2 : validate_request_result t2 = .error (.InvalidXcsrf T')) :
    upload_studio_asset c asset_info (t1 :: t2 :: rest) =
      (.error (.InvalidXcsrf T'), c.set_xcsrf T,
       [mkWireRequest ck c.xcsrf asset_info, mkWireRequest ck T asset_info]) := by
  rw [upload_first_invalid c ck asset_info t1 (t2 :: rest) T hck h1]
  simp [h2]

/-- Witness for C2: both prescribed responses are token-invalid rejections. -/
theorem upload_studio_asset_two_invalid_stops_witness :
    upload_studio_asset sampleClient sampleAsset
        [.response 403 [(REFRESH_HEADER, "T2")] "",
         .response 403 [(REFRESH_HEADER, "T3")] ""] =
      (.error (.InvalidXcsrf "T3"), sampleClient.set_xcsrf "T2",
       [mkWireRequest "C" sampleClient.xcsrf sampleAsset,
        mkWireRequest "C" "T2" sampleAsset]) :=
  upload_studio_asset_two_invalid_stops sampleClient "C" sampleAsset
    (.response 403 [(REFRESH_HEADER, "T2")] "")
    (.response 403 [(REFRESH_HEADER, "T3")] "") [] "T2" "T3" rfl rfl rfl

/-- C3: with the session cookie unset the operation fails with `MissingAuth` and
performs zero Transport invocations. -/
theorem upload_studio_asset_missing_cookie (c : ClientState) (asset_info : NewStudioAsset)
    (oracle : List TransportOutcome) (hck : c.cookie = none) :
    upload_studio_asset c asset_info oracle = (.error .MissingAuth, c, []) := by
  unfold upload_studio_asset
  rw [internal_cookie_none c asset_info oracle hck]

/-- Witness for C3: a cookieless client fails before the available response is
consumed. -/
theorem upload_studio_asset_missing_cookie_witness :
    upload_studio_asset { cookie := none, xcsrf := "T1" } sampleAsset
        [.response 200 [] "9876543210"] =
      (.error .MissingAuth, { cookie := none, xcsrf := "T1" }, []) :=
  upload_studio_asset_missing_cookie { cookie := none, xcsrf := "T1" } sampleAsset
    [.response 200 [] "9876543210"] rfl

/-- C4: a first attempt rejected as token-invalid whose response carries an absent or
malformed (empty) replacement token fails with `MalformedRefreshSignal` after a
single Transport invocation: no second attempt is issued. -/
theorem upload_studio_asset_malformed_refresh (c : ClientState) (ck : String)
    (asset_info : NewStudioAsset) (hs : List (String × String)) (b : String)
    (rest : List TransportOutcome) (hck : c.cookie = some ck)
    (hh : List.lookup REFRESH_HEADER hs = none ∨ List.lookup REFRESH_HEADER hs = some "") :
    upload_studio_asset c asset_info (.response 403 hs b :: rest) =
      (.error .MalformedRefreshSignal, c, [mkWireRequest ck c.xcsrf asset_info]) := by
  have h1 : validate_request_result (.response 403 hs b) = .error .MalformedRefreshSignal := by
    rcases hh with h | h <;> simp [validate_request_result, h]
  exact upload_first_other_error c ck asset_info (.response 403 hs b) rest
    .MalformedRefreshSignal hck h1 (fun s => by simp)

/-- Witness for C4: a 403 rejection with no replacement-token header at all. -/
theorem upload_studio_asset_malformed_refresh_witness :
    upload_studio_asset sampleClient sampleAsset [.response 403 [] "x"] =
      (.error .MalformedRefreshSignal, sampleClient,
       [mkWireRequest "C" sampleClient.xcsrf sampleAsset]) :=
  upload_studio_asset_malformed_refresh sampleClient "C" sampleAsset [] "x" [] rfl
    (Or.inl rfl)

/-- C5: a transport-level failure on the first attempt is returned immediately as the
typed transport failure after exactly one Transport invocation and is never retried;
more generally, every first-attempt failure other than the token-invalid signal
propagates unchanged after one Transport invocation. -/
theorem upload_studio_asset_no_retry_on_transport_failure (c : ClientState) (ck : String)
    (asset_info : NewStudioAsset) (rest : List TransportOutcome)
    (hck : c.cookie = some ck) :
    (∀ n, upload_studio_asset c asset_info (.failure n :: rest) =
        (.error (.ReqwestError n), c, [mkWireRequest ck c.xcsrf asset_info])) ∧
    (∀ t1 e, validate_request_result t1 = .error e → (∀ s, e ≠ .InvalidXcsrf s) →
        upload_studio_asset c asset_info (t1 :: rest) =
          (.error e, c, [mkWireRequest ck c.xcsrf asset_info])) := by
  refine ⟨fun n => ?_,
    fun t1 e h1 hne => upload_first_other_error c ck asset_info t1 rest e hck h1 hne⟩
  exact upload_first_other_error c ck asset_info (.failure n) rest (.ReqwestError n) hck
    rfl (fun s => by simp)

/-- Witness for C5: a transport failure with cause 7 is surfaced unchanged after one
invocation. -/
theorem upload_studio_asset_no_retry_on_transport_failure_witness :
    upload_studio_asset sampleClient sampleAsset [.failure 7] =
      (.error (.ReqwestError 7), sampleClient,
       [mkWireRequest "C" sampleClient.xcsrf sampleAsset]) :=
  (upload_studio_asset_no_retry_on_transport_failure sampleClient "C" sampleAsset []
    rfl).1 7

/-- The `groupId` entry of the built query parameters is exactly the stringified
owning group, when one is set. -/
lemma lookup_groupId (asset_info : NewStudioAsset) :
    List.lookup "groupId" (build_query_params asset_info) =
      Option.map toString asset_info.group_id := by
  rcases hg : asset_info.group_id with _ | g <;>
    simp only [build_query_params, hg, Option.map] <;> rfl

/-- C6: the constructed query-parameter set contains a `groupId` key iff the optional
owning-group field is set; when it is unset there is no `groupId` key at all, and
when it is set to 42 the set contains `groupId=42`. -/
theorem build_query_params_groupId (asset_info : NewStudioAsset) :
    ((List.lookup "groupId" (build_query_params asset_info)).isSome ↔
      asset_info.group_id.isSome) ∧
    (asset_info.group_id = none →
      List.lookup "groupId" (build_query_params asset_info) = none) ∧
    (asset_info.group_id = some 42 →
      ("groupId", "42") ∈ build_query_params asset_info) := by
  refine ⟨?_, fun h => ?_, fun h => ?_⟩
  · rw [lookup_groupId]
    rcases asset_info.group_id with _ | g <;> simp
  · rw [lookup_groupId, h]
    rfl
  · simp only [build_query_params, h]
    refine List.mem_append_right _ ?_
    rw [show toString (42 : Nat) = "42" from rfl]
    exact List.mem_singleton.mpr rfl

/-- Witness for C6: with the owning group set to 42 the parameters contain
`groupId=42`. -/
theorem build_query_params_groupId_witness :
    ("groupId", "42") ∈ build_query_params { sampleAsset with group_id := some 42 } :=
  (build_query_params_groupId { sampleAsset with group_id := some 42 }).2.2 rfl

/-- C7: with the cookie set, each Transport invocation submits a POST to the studio
upload endpoint whose query parameters are exactly `assetTypeName`, `name`,
`description`, the fixed flags `AllID=1`, `ispublic=False`, `allowComments=True`,
`isGamesAsset=False`, plus `groupId` exactly when an owning group is set; whose
headers carry the session cookie, the current anti-forgery token and the fixed
client-identification string; and whose body is the raw binary payload unchanged. -/
theorem upload_wire_request_exact (c : ClientState) (ck : String)
    (asset_info : NewStudioAsset) (oracle : List TransportOutcome)
    (hck : c.cookie = some ck) :
    (upload_studio_asset_internal c asset_info oracle).2.1 =
      [{ method := "POST"
         url := STUDIO_UPLOAD_API
         query :=
           [("assetTypeName", assetTypeDebug asset_info.asset_type),
            ("name", asset_info.name),
            ("description", asset_info.description),
            ("AllID", "1"),
            ("ispublic", "False"),
            ("allowComments", "True"),
            ("isGamesAsset", "False")] ++
           (match asset_info.group_id with
            | some g => [("groupId", toString g)]
            | none => [])
         headers := [(COOKIE_HEADER, ck), (XCSRF_HEADER, c.xcsrf),
                     (USER_AGENT_HEADER, "Roblox/WinInet")]
         body := asset_info.asset_data }] := by
  rw [internal_cookie_some c ck asset_info oracle hck]
  rcases hg : asset_info.group_id with _ | g <;>
    simp [mkWireRequest, build_query_params, hg]

/-- Witness for C7 at the spec's concrete scenario (no owning group). -/
theorem upload_wire_request_exact_witness :
    (upload_studio_asset_internal sampleClient sampleAsset [.failure 0]).2.1 =
      [{ method := "POST"
         url := STUDIO_UPLOAD_API
         query :=
           [("assetTypeName", assetTypeDebug sampleAsset.asset_type),
            ("name", sampleAsset.name),
            ("description", sampleAsset.description),
            ("AllID", "1"),
            ("ispublic", "False"),
            ("allowComments", "True"),
            ("isGamesAsset", "False")] ++
           (match sampleAsset.group_id with
            | some g => [("groupId", toString g)]
            | none => [])
         headers := [(COOKIE_HEADER, "C"), (XCSRF_HEADER, sampleClient.xcsrf),
                     (USER_AGENT_HEADER, "Roblox/WinInet")]
         body := sampleAsset.asset_data }] :=
  upload_wire_request_exact sampleClient "C" sampleAsset [.failure 0] rfl

/-- C8: with a valid cookie and a token the server accepts (a 2xx first response),
the operation succeeds and its success value is exactly the response body text,
unmodified, with the session state unchanged. -/
theorem upload_studio_asset_success_returns_body (c : ClientState) (ck : String)
    (asset_info : NewStudioAsset) (st : Nat) (hs : List (String × String)) (b : String)
    (rest : List TransportOutcome) (hck : c.cookie = some ck)
    (hst : 200 ≤ st ∧ st < 300) :
    upload_studio_asset c asset_info (.response st hs b :: rest) =
      (.ok b, c, [mkWireRequest ck c.xcsrf asset_info]) := by
  have h1 : validate_request_result (.response st hs b) = .ok b := by
    simp [validate_request_result, hst]
  exact upload_first_ok c ck asset_info (.response st hs b) rest b hck h1

/-- Witness for C8 at the spec's concrete scenario's successful response. -/
theorem upload_studio_asset_success_returns_body_witness :
    upload_studio_asset sampleClient sampleAsset [.response 200 [] "9876543210"] =
      (.ok "9876543210", sampleClient,
       [mkWireRequest "C" sampleClient.xcsrf sampleAsset]) :=
  upload_studio_asset_success_returns_body sampleClient "C" sampleAsset 200 [] "9876543210"
    [] rfl (by decide)

/-- C9: the target-context field `place_id` is never read when building or submitting
the request: two upload requests differing only in `place_id` produce identical
results, session states and wire-request traces. -/
theorem upload_studio_asset_place_id_unobservable (c : ClientState)
    (asset_info : NewStudioAsset) (p1 p2 : Option Nat) (oracle : List TransportOutcome) :
    upload_studio_asset c { asset_info with place_id := p1 } oracle =
    upload_studio_asset c { asset_info with place_id := p2 } oracle := rfl

/-- The retry wrapper, characterized by the classification of its first attempt:
success and non-token-invalid errors return directly with the state unchanged, while
a token-invalid classification stores the carried token and returns the second
attempt's result from that updated state. -/
lemma upload_eq_cases (c : ClientState) (asset_info : NewStudioAsset)
    (oracle : List TransportOutcome) :
    upload_studio_asset c asset_info oracle =
      match (upload_studio_asset_internal c asset_info oracle).1 with
      | .ok x => (.ok x, c, (upload_studio_asset_internal c asset_info oracle).2.1)
      | .error (.InvalidXcsrf T) =>
        ((upload_studio_asset_internal (c.set_xcsrf T) asset_info
            (upload_studio_asset_internal c asset_info oracle).2.2).1,
         c.set_xcsrf T,
         (upload_studio_asset_internal c asset_info oracle).2.1 ++
           (upload_studio_asset_internal (c.set_xcsrf T) asset_info
             (upload_studio_asset_internal c asset_info oracle).2.2).2.1)
      | .error e => (.error e, c, (upload_studio_asset_internal c asset_info oracle).2.1) := by
  unfold upload_studio_asset
  rcases upload_studio_asset_internal c asset_info oracle with ⟨r, trace, rest⟩
  cases r with
  | ok x => rfl
  | error e => cases e <;> rfl

/-- C10: the session token is mutated only when the first attempt fails with the
token-invalid signal, in which case it becomes the carried replacement; on every
other first-attempt outcome the session state is returned unchanged; and the cookie
is never mutated on any path. -/
theorem upload_studio_asset_state_frame (c : ClientState) (asset_info : NewStudioAsset)
    (oracle : List TransportOutcome) :
    ((upload_studio_asset c asset_info oracle).2.1.cookie = c.cookie) ∧
    ((∀ T, (upload_studio_asset_internal c asset_info oracle).1 ≠
        .error (.InvalidXcsrf T)) →
      (upload_studio_asset c asset_info oracle).2.1 = c) ∧
    (∀ T, (upload_studio_asset_internal c asset_info oracle).1 =
        .error (.InvalidXcsrf T) →
      (upload_studio_asset c asset_info oracle).2.1 = c.set_xcsrf T) := by
  rcases h : (upload_studio_asset_internal c asset_info oracle).1 with e | x
  case ok =>
    rw [upload_eq_cases c asset_info oracle, h]
    exact ⟨rfl, fun _ => rfl, fun T hT => absurd hT (by simp)⟩
  case error =>
    cases e with
    | InvalidXcsrf T =>
      rw [upload_eq_cases c asset_info oracle, h]
      refine ⟨rfl, fun hno => absurd rfl (hno T), fun T' hT' => ?_⟩
      have hTT : T = T' := by simpa using hT'
      rw [← hTT]
    | MissingAuth =>
      rw [upload_eq_cases c asset_info oracle, h]
      exact ⟨rfl, fun _ => rfl, fun T hT => absurd hT (by simp)⟩
    | MalformedRefreshSignal =>
      rw [upload_eq_cases c asset_info oracle, h]
      exact ⟨rfl, fun _ => rfl, fun T hT => absurd hT (by simp)⟩
    | ResponseError st b =>
      rw [upload_eq_cases c asset_info oracle, h]
      exact ⟨rfl, fun _ => rfl, fun T hT => absurd hT (by simp)⟩
    | ReqwestError n =>
      rw [upload_eq_cases c asset_info oracle, h]
      exact ⟨rfl, fun _ => rfl, fun T hT => absurd hT (by simp)⟩

/-- Witness for C10: at the spec's concrete scenario's rejecting first response, the
final session state is exactly the original with the token replaced by `T2`. -/
theorem upload_studio_asset_state_frame_witness :
    (upload_studio_asset sampleClient sampleAsset
        [.response 403 [(REFRESH_HEADER, "T2")] ""]).2.1 = sampleClient.set_xcsrf "T2" :=
  (upload_studio_asset_state_frame sampleClient sampleAsset
      [.response 403 [(REFRESH_HEADER, "T2")] ""]).2.2 "T2" rfl
